import Mathlib

/-!
Verification of the libera-core Ether Dream streaming engine.

Shallow embedding of the C++ sources:
  * `src/src/EtherDream/EtherDreamResponse.cpp`  — ack/status decoding
  * `src/src/EtherDream/EtherDreamCommand.cpp`   — command framing
  * `src/src/core/ByteBuffer.cpp`                — little-endian byte emission
  * `src/src/core/LaserDeviceBase.cpp`           — callback / point buffers
  * `src/src/EtherDream/EtherDreamDevice.cpp`    — worker-loop refill math
  * `src/include/libera/net/TcpClient.hpp`       — socket open/close state
  * `src/include/libera/etherdream/EtherDreamConfig.hpp` — constants

Machine integers are modelled as `Nat`/`Int` with explicit `% 2^w` where the
source casts; C++ `double`/`float` arithmetic is modelled by exact rationals
(the properties proved are robust to this: every range fact below is forced
by the final integer clamps of the source).  Byte buffers are `List Nat`
with each element a byte value.
-/

namespace Libera

/-! ### Configuration constants (EtherDreamConfig.hpp) -/

def ETHERDREAM_DAC_PORT_DEFAULT : Nat := 7765

def ETHERDREAM_TARGET_POINT_RATE : Nat := 30000

def ETHERDREAM_BUFFER_CAPACITY : Nat := 1799

def ETHERDREAM_MIN_PACKET_POINTS : Nat := 150

/-- `constexpr std::chrono::milliseconds ETHERDREAM_MIN_SLEEP{1};` (in ms). -/
def ETHERDREAM_MIN_SLEEP : Int := 1

/-- `constexpr std::chrono::milliseconds ETHERDREAM_MAX_SLEEP{50};` (in ms). -/
def ETHERDREAM_MAX_SLEEP : Int := 50

/-! ### Device status (EtherDreamResponse.hpp)

`LightEngineState` and `PlaybackState` are C++ scoped enums with underlying
type `uint8_t`; `EtherDreamResponse::decode` stores raw bytes into them via
`static_cast`, so any byte value is representable.  We model the fields as
the underlying byte (`Nat`), with named constants for the enumerators. -/

def LightEngineState.Ready : Nat := 0
def LightEngineState.Warmup : Nat := 1
def LightEngineState.Cooldown : Nat := 2
def LightEngineState.Estop : Nat := 3

def PlaybackState.Idle : Nat := 0
def PlaybackState.Prepared : Nat := 1
def PlaybackState.Playing : Nat := 2
def PlaybackState.Paused : Nat := 3

structure EtherDreamStatus where
  protocol : Nat := 0
  lightEngineState : Nat := 0
  playbackState : Nat := 0
  source : Nat := 0
  lightEngineFlags : Nat := 0
  playbackFlags : Nat := 0
  sourceFlags : Nat := 0
  bufferFullness : Nat := 0
  pointRate : Nat := 0
  pointCount : Nat := 0
deriving Repr, DecidableEq

structure EtherDreamResponse where
  response : Nat := 0
  command : Nat := 0
  status : EtherDreamStatus := {}
deriving Repr, DecidableEq

/-- `read_le_u16` from EtherDreamResponse.cpp: `data[0] | data[1] << 8`. -/
def read_le_u16 (b0 b1 : Nat) : Nat := b0 + b1 * 256

/-- `read_le_u32` from EtherDreamResponse.cpp. -/
def read_le_u32 (b0 b1 b2 b3 : Nat) : Nat :=
  b0 + b1 * 256 + b2 * 65536 + b3 * 16777216

/-- `EtherDreamResponse::decode(data, size)`: fails only when the pointer is
null (no such thing in the list model) or `size < 22`; otherwise all fields,
including the two state enums, are taken verbatim from the bytes with no
range validation.  Returns `none` exactly when the C++ function returns
`false`. -/
def EtherDreamResponse.decode (data : List Nat) : Option EtherDreamResponse :=
  if data.length < 22 then none
  else
    some
      { response := data.getD 0 0
        command := data.getD 1 0
        status :=
          { protocol := data.getD 2 0
            lightEngineState := data.getD 3 0
            playbackState := data.getD 4 0
            source := data.getD 5 0
            lightEngineFlags := read_le_u16 (data.getD 6 0) (data.getD 7 0)
            playbackFlags := read_le_u16 (data.getD 8 0) (data.getD 9 0)
            sourceFlags := read_le_u16 (data.getD 10 0) (data.getD 11 0)
            bufferFullness := read_le_u16 (data.getD 12 0) (data.getD 13 0)
            pointRate :=
              read_le_u32 (data.getD 14 0) (data.getD 15 0)
                (data.getD 16 0) (data.getD 17 0)
            pointCount :=
              read_le_u32 (data.getD 18 0) (data.getD 19 0)
                (data.getD 20 0) (data.getD 21 0) } }

/-! ### Byte buffer (ByteBuffer.cpp) — all multi-byte appends little-endian -/

def appendChar (buf : List Nat) (c : Nat) : List Nat := buf ++ [c % 256]

def appendUInt16 (buf : List Nat) (v : Nat) : List Nat :=
  buf ++ [v % 256, v / 256 % 256]

/-- `appendInt16` casts the `int16_t` to `uint16_t` (two-complement wraparound) and
delegates to `appendUInt16`. -/
def appendInt16 (buf : List Nat) (v : Int) : List Nat :=
  appendUInt16 buf (v % 65536).toNat

def appendUInt32 (buf : List Nat) (v : Nat) : List Nat :=
  buf ++ [v % 256, v / 256 % 256, v / 65536 % 256, v / 16777216 % 256]

/-! ### Point encoding (EtherDreamCommand.cpp)

Floats are modelled as exact rationals; `std::clamp` on a rational and the
C cast to an integer type (truncation toward zero) are explicit. -/

structure LaserPoint where
  x : ℚ := 0
  y : ℚ := 0
  r : ℚ := 0
  g : ℚ := 0
  b : ℚ := 0
  i : ℚ := 0
  u1 : ℚ := 0
  u2 : ℚ := 0
deriving Repr, DecidableEq

/-- `std::clamp(v, lo, hi)` for `lo ≤ hi`. -/
def rclamp (v lo hi : ℚ) : ℚ := min (max v lo) hi

/-- `std::clamp` on integers. -/
def iclamp (v lo hi : Int) : Int := min (max v lo) hi

/-- C cast from a floating value to an integer type: truncation toward 0. -/
def truncToInt (q : ℚ) : Int := if 0 ≤ q then ⌊q⌋ else ⌈q⌉

/-- `EtherDreamCommand::encodeCoordinate`: clamp to [-1,1], scale by 32767,
round half away from zero (`scaled >= 0 ? scaled + 0.5 : scaled - 0.5` then
truncating cast), clamp into `[-32768, 32767]`. -/
def encodeCoordinate (value : ℚ) : Int :=
  let clamped := rclamp value (-1) 1
  let scaled := clamped * 32767
  let rounded := truncToInt (if 0 ≤ scaled then scaled + 1/2 else scaled - 1/2)
  iclamp rounded (-32768) 32767

/-- `EtherDreamCommand::encodeChannel`: clamp to [0,1], scale by 65535,
round half up (`scaled + 0.5` then truncating cast), clamp into
`[0, 65535]`. -/
def encodeChannel (value : ℚ) : Nat :=
  let clamped := rclamp value 0 1
  let scaled := clamped * 65535
  let rounded := truncToInt (scaled + 1/2)
  (iclamp rounded 0 65535).toNat

def RATE_CHANGE_BIT : Nat := 32768

/-- `EtherDreamCommand::setDataCommand`: clear the buffer, append `'d'`
(byte 100) and the little-endian `uint16` point count. -/
def setDataCommand (pointCount : Nat) : List Nat :=
  appendUInt16 (appendChar [] 100) pointCount

/-- `EtherDreamCommand::addPoint`: appends the 9 little-endian `u16` fields
of one point (control, x, y, r, g, b, i, u1, u2). -/
def addPoint (buf : List Nat) (p : LaserPoint) (setRateChangeFlag : Bool) :
    List Nat :=
  let control : Nat := if setRateChangeFlag then RATE_CHANGE_BIT else 0
  let b1 := appendUInt16 buf control
  let b2 := appendInt16 b1 (encodeCoordinate p.x)
  let b3 := appendInt16 b2 (encodeCoordinate p.y)
  let b4 := appendUInt16 b3 (encodeChannel p.r)
  let b5 := appendUInt16 b4 (encodeChannel p.g)
  let b6 := appendUInt16 b5 (encodeChannel p.b)
  let b7 := appendUInt16 b6 (encodeChannel p.i)
  let b8 := appendUInt16 b7 (encodeChannel p.u1)
  appendUInt16 b8 (encodeChannel p.u2)

/-- The `for (idx = 0; idx < pointCount; ++idx)` loop in
`EtherDreamDevice::run`: add each point in order, the rate-change flag only
on index 0 (`injectRateChange && idx == 0`). -/
def addPoints (buf : List Nat) (pts : List LaserPoint) (firstFlag : Bool) :
    List Nat :=
  match pts with
  | [] => buf
  | p :: rest => addPoints (addPoint buf p firstFlag) rest false

/-- Whole-frame emission of a `data` command for a list of points:
`setDataCommand(n)` followed by `n` calls to `addPoint`. -/
def encodeDataFrame (pts : List LaserPoint) (inject : Bool) : List Nat :=
  addPoints (setDataCommand pts.length) pts inject

/-- Little-endian `u16` count field of an encoded data frame
(bytes 1 and 2). -/
def countField (frame : List Nat) : Nat :=
  read_le_u16 (frame.getD 1 0) (frame.getD 2 0)

/-! ### Refill and sleep math (EtherDreamDevice.cpp) -/

/-- `EtherDreamDevice::calculateMinimumPoints(status, maxLatencyMillis)`:
returns 0 when the point rate is zero or the latency is non-positive;
otherwise `requiredPoints = rate * latency / 1000` (double arithmetic,
modelled exactly over ℚ), 0 when the reported fullness already covers it,
and `ceil(requiredPoints - bufferFullness)` otherwise. -/
def calculateMinimumPoints (status : EtherDreamStatus)
    (maxLatencyMillis : Int) : Nat :=
  if status.pointRate = 0 ∨ maxLatencyMillis ≤ 0 then 0
  else
    let requiredPoints : ℚ :=
      (status.pointRate : ℚ) * (maxLatencyMillis : ℚ) / 1000
    if requiredPoints ≤ (status.bufferFullness : ℚ) then 0
    else (⌈requiredPoints - (status.bufferFullness : ℚ)⌉).toNat

/-- `EtherDreamDevice::clampDesiredPoints(minimumPointsNeeded,
minPacketPoints, bufferFree)`: 0 when the FIFO has no free space, else
`min(max(minimumPointsNeeded, minPacketPoints), bufferFree)`. -/
def clampDesiredPoints (minimumPointsNeeded minPacketPoints bufferFree : Nat) :
    Nat :=
  if bufferFree = 0 then 0
  else min (max minimumPointsNeeded minPacketPoints) bufferFree

/-- The `bufferFree` computation in `EtherDreamDevice::run` and
`computeSleepDuration`: `capacity > fullness ? capacity - fullness : 0`. -/
def bufferFreeOf (bufferCapacity bufferFullness : Nat) : Nat :=
  if bufferCapacity > bufferFullness then bufferCapacity - bufferFullness
  else 0

/-- `EtherDreamDevice::computeSleepDuration(status, bufferCapacity,
minPacketPoints)` in milliseconds: `MAX_SLEEP` when the rate is 0,
`MIN_SLEEP` when at least at least `minPacketPoints` of FIFO space is free, otherwise
`ceil(pointsNeeded * 1000 / max(rate, 1))` clamped to
`[MIN_SLEEP, MAX_SLEEP]`. -/
def computeSleepDuration (status : EtherDreamStatus)
    (bufferCapacity minPacketPoints : Nat) : Int :=
  if status.pointRate = 0 then ETHERDREAM_MAX_SLEEP
  else
    let bufferFree := bufferFreeOf bufferCapacity status.bufferFullness
    if bufferFree ≥ minPacketPoints then ETHERDREAM_MIN_SLEEP
    else
      let pointsNeeded := minPacketPoints - bufferFree
      let ms : ℚ := (pointsNeeded : ℚ) * 1000 / (max status.pointRate 1 : ℚ)
      let duration : Int := ⌈ms⌉
      iclamp duration ETHERDREAM_MIN_SLEEP ETHERDREAM_MAX_SLEEP

/-! ### Ack waiting (EtherDreamDevice::waitForResponse)

The network read is abstracted by the 22-byte reply actually received;
everything from the decode on follows the source logic.  The function returns
either the `DacAck` or the error kind the C++ function surfaces. -/

inductive EdError where
  | notConnected
  | timedOut
  | protocolError
  | ioError
deriving Repr, DecidableEq

structure DacAck where
  status : EtherDreamStatus := {}
  command : Nat := 0
deriving Repr, DecidableEq

/-- ASCII code of the accept response `'a'`. -/
def ACK_ACCEPT : Nat := 97

/-- `EtherDreamDevice::waitForResponse(command)` applied to the raw reply
bytes: decode failure surfaces `protocol_error`; a decoded reply whose
`response` is not `'a'` or whose echoed `command` differs from the expected
one also surfaces `protocol_error`; otherwise the `DacAck` is returned. -/
def waitForResponse (raw : List Nat) (command : Nat) :
    Except EdError DacAck :=
  match EtherDreamResponse.decode raw with
  | none => .error .protocolError
  | some response =>
    if response.response ≠ ACK_ACCEPT ∨ response.command ≠ command then
      .error .protocolError
    else
      .ok { status := response.status, command := response.command }

/-- How every caller in `EtherDreamDevice::run` treats the result of
`waitForResponse` / `sendCommand`: `lastKnownStatus` is overwritten with the
status carried by the ack only when the call succeeded (`lastKnownStatus = ack->status`
lives inside the success branch everywhere). -/
def updateLastKnownStatus (lastKnownStatus : EtherDreamStatus)
    (result : Except EdError DacAck) : EtherDreamStatus :=
  match result with
  | .ok ack => ack.status
  | .error _ => lastKnownStatus

/-! ### Laser device base (LaserDeviceBase.cpp) -/

structure PointFillRequest where
  minimumPointsRequired : Nat := 0
  maximumPointsRequired : Nat := 0
  /-- Advisory steady-clock time point, in ms since an arbitrary origin. -/
  estimatedFirstPointRenderTime : Int := 0
  currentPointIndex : Nat := 0
deriving Repr, DecidableEq

/-- The generator callback: given the request and the (cleared) output
buffer it was handed, it returns the buffer contents after appending. -/
def RequestPointsCallback : Type :=
  PointFillRequest → List LaserPoint → List LaserPoint

/-- The two point buffers owned by `LaserDeviceBase`: `pointsToSend`, the
main buffer of points pending transmission, and `newPoints`, the scratch
buffer the callback fills. -/
structure LaserDeviceBuffers where
  pointsToSend : List LaserPoint := []
  newPoints : List LaserPoint := []

/-- The min/max contract asserted (debug builds) on the output of the callback:
at least the minimum, and at most the maximum when the maximum is
non-zero. -/
def fillContract (request : PointFillRequest) (produced : List LaserPoint) :
    Prop :=
  request.minimumPointsRequired ≤ produced.length ∧
    (0 < request.maximumPointsRequired →
      produced.length ≤ request.maximumPointsRequired)

/-- `LaserDeviceBase::requestPoints(request)`: returns `false` (state
unchanged) when no callback is installed; otherwise clears the scratch
buffer `newPoints`, invokes the callback once against it, and appends the
produced batch to `pointsToSend`.  The outbound `pointsToSend` buffer is
*not* cleared here. -/
def requestPoints (callback : Option RequestPointsCallback)
    (st : LaserDeviceBuffers) (request : PointFillRequest) :
    Bool × LaserDeviceBuffers :=
  match callback with
  | none => (false, st)
  | some cb =>
    let produced := cb request []
    (true,
      { pointsToSend := st.pointsToSend ++ produced
        newPoints := produced })

/-- `LaserDeviceBase::setLatency`: values below 1 ms clamp to 1. -/
def setLatency (latencyMillisValue : Int) : Int :=
  if latencyMillisValue < 1 then 1 else latencyMillisValue

/-! ### Connection teardown (EtherDreamDevice::close, TcpClient::close) -/

/-- `TcpClient::close()`: no-op when the socket is not open; otherwise
cancel → shutdown → close, after which the socket is closed.  The model
tracks the open flag of the socket. -/
def TcpClient.close (socketOpen : Bool) : Bool :=
  if socketOpen then false else socketOpen

/-- Device-level connection state relevant to `close`/`isConnected`: the
open flag of the TCP socket and the remembered address (opaquely a `Nat`). -/
structure EdConnState where
  socketOpen : Bool := false
  rememberedAddress : Option Nat := none
deriving Repr, DecidableEq

/-- `EtherDreamDevice::close()`: when the socket is already closed it only
resets the remembered address; otherwise it closes the TCP client and then
resets the remembered address.  It has no failure path (returns `void`,
`TcpClient::close` swallows every error code). -/
def EtherDreamDevice.close (s : EdConnState) : EdConnState :=
  if s.socketOpen then
    { socketOpen := TcpClient.close s.socketOpen, rememberedAddress := none }
  else
    { s with rememberedAddress := none }

/-- `EtherDreamDevice::isConnected()` = `tcpClient.is_open()`. -/
def EtherDreamDevice.isConnected (s : EdConnState) : Bool := s.socketOpen

/-! ### One send step of the worker loop (EtherDreamDevice::run)

The refill decision and frame assembly of a single loop iteration, given
the latest status snapshot, the configured latency and the generator:
compute `bufferFree` and `desiredPoints`; when `desiredPoints > 0` build
the `PointFillRequest`, run the generator, fail (no frame) when it produced
fewer than `desiredPoints`, truncate the batch to `bufferFree`, cap the
encoded count at `uint16` max, and emit the frame. -/
/-- The `PointFillRequest` assembled in `EtherDreamDevice::run` (step 4):
`minimum_points_required = desiredPoints`, `maximum_points_required =
bufferFree`, the advisory render time is `now + latencyBudget` (the clock
reading is a parameter here), and `currentPointIndex` keeps its default. -/
def buildFillRequest (status : EtherDreamStatus) (latencyMillis : Int)
    (now : Int) : PointFillRequest :=
  let bufferFree := bufferFreeOf ETHERDREAM_BUFFER_CAPACITY
    status.bufferFullness
  let minimumPointsNeeded := calculateMinimumPoints status latencyMillis
  let desiredPoints :=
    clampDesiredPoints minimumPointsNeeded ETHERDREAM_MIN_PACKET_POINTS
      bufferFree
  { minimumPointsRequired := desiredPoints
    maximumPointsRequired := bufferFree
    estimatedFirstPointRenderTime := now + latencyMillis }

def iterationSend (status : EtherDreamStatus) (latencyMillis : Int)
    (callback : Option RequestPointsCallback) (rateChangePending : Bool) :
    Option (List Nat) :=
  let bufferFullness := status.bufferFullness
  let bufferFree := bufferFreeOf ETHERDREAM_BUFFER_CAPACITY bufferFullness
  let minimumPointsNeeded := calculateMinimumPoints status latencyMillis
  let desiredPoints :=
    clampDesiredPoints minimumPointsNeeded ETHERDREAM_MIN_PACKET_POINTS
      bufferFree
  if desiredPoints = 0 then none
  else
    let req : PointFillRequest := buildFillRequest status latencyMillis 0
    match requestPoints callback { pointsToSend := [] } req with
    | (false, _) => none
    | (true, st) =>
      if st.pointsToSend.length < desiredPoints then none
      else
        let pts :=
          if st.pointsToSend.length > bufferFree then
            st.pointsToSend.take bufferFree
          else st.pointsToSend
        let pointCount := min pts.length 65535
        some (addPoints (setDataCommand pointCount) (pts.take pointCount)
          rateChangePending)

/-! ### Concrete test inputs -/

/-- The all-zero point, used as a concrete test input. -/
def origin : LaserPoint := {}

/-- The status of spec Scenario 5: rate 30000, fullness 200. -/
def scenario5Status : EtherDreamStatus :=
  { bufferFullness := 200, pointRate := 30000 }

/-- A status whose fullness already covers the latency budget but whose
FIFO is not completely full. -/
def nearlyFullStatus : EtherDreamStatus :=
  { bufferFullness := 1798, pointRate := 30000 }

/-- A validly-parsed 22-byte reply whose response code is `'q'` (113), not
`'a'`, echoing command `'d'` (100), carrying `buffer_fullness = 512` and
`point_rate = 30000`. -/
def replyMismatch : List Nat :=
  [113, 100, 0, 0, 1, 0, 0, 0, 0, 0, 0, 0, 0, 2, 48, 117, 0, 0, 0, 0, 0, 0]

/-- A 22-byte reply with response `'a'` (97) echoing `'d'` (100) whose
`light_engine_state` byte is 255 and `playback_state` byte is 7, both
outside their enumerations. -/
def replyBadStates : List Nat :=
  [97, 100, 0, 255, 7, 0, 0, 0, 0, 0, 0, 0, 0, 0, 0, 0, 0, 0, 0, 0, 0, 0]

/-- A generator that appends exactly two points. -/
def twoPointGenerator : RequestPointsCallback :=
  fun _ buf => buf ++ [origin, origin]

/-- A generator that appends exactly one point. -/
def onePointGenerator : RequestPointsCallback :=
  fun _ buf => buf ++ [origin]

/-- A buffer state in which one point is already pending transmission. -/
def singlePointState : LaserDeviceBuffers := { pointsToSend := [origin] }

/-- A fill request demanding exactly one point with a cap of one point. -/
def unitRequest : PointFillRequest :=
  { minimumPointsRequired := 1, maximumPointsRequired := 1 }

/-- The default-initialised status snapshot (`schema::DacStatus
lastKnownStatus{}`). -/
def initialStatus : EtherDreamStatus := {}

/-- Empty point buffers, as the worker loop leaves them before a fill. -/
def emptyBuffers : LaserDeviceBuffers := {}

/-- A status reporting a completely full FIFO. -/
def fullStatus : EtherDreamStatus :=
  { bufferFullness := 1799, pointRate := 30000 }

/-! ### Helper lemmas -/

theorem addPoint_length (buf : List Nat) (p : LaserPoint) (f : Bool) :
    (addPoint buf p f).length = buf.length + 18 := by
  simp [addPoint, appendUInt16, appendInt16, appendChar]

theorem addPoints_length (pts : List LaserPoint) (buf : List Nat) (f : Bool) :
    (addPoints buf pts f).length = buf.length + 18 * pts.length := by
  induction pts generalizing buf f with
  | nil => simp [addPoints]
  | cons p rest ih =>
    simp [addPoints, ih, addPoint_length]
    ring

theorem addPoint_eq_append (buf : List Nat) (p : LaserPoint) (f : Bool) :
    addPoint buf p f = buf ++ addPoint [] p f := by
  simp [addPoint, appendUInt16, appendInt16, appendChar]

theorem addPoints_eq_append (pts : List LaserPoint) (buf : List Nat)
    (f : Bool) : addPoints buf pts f = buf ++ addPoints [] pts f := by
  induction pts generalizing buf f with
  | nil => simp [addPoints]
  | cons p rest ih =>
    rw [addPoints, addPoints, ih, ih (addPoint [] p f),
      addPoint_eq_append, List.append_assoc]

theorem setDataCommand_eq (n : Nat) :
    setDataCommand n = [100, n % 256, n / 256 % 256] := by
  simp [setDataCommand, appendUInt16, appendChar]

theorem countField_addPoints (n : Nat) (pts : List LaserPoint) (f : Bool) :
    countField (addPoints (setDataCommand n) pts f) = n % 65536 := by
  rw [addPoints_eq_append, setDataCommand_eq]
  simp [countField, read_le_u16]
  omega

theorem iclamp_le_hi (v lo hi : Int) : iclamp v lo hi ≤ hi :=
  min_le_right _ _

theorem ceil_neg_half_word : ⌈-((65535 : ℚ) / 2)⌉ = -32767 := by
  rw [Int.ceil_neg]
  norm_num

theorem calcMin_nearlyFull : calculateMinimumPoints nearlyFullStatus 50 = 0 := by
  norm_num [calculateMinimumPoints, nearlyFullStatus]

theorem buildReq_nearlyFull :
    buildFillRequest nearlyFullStatus 50 0 = ⟨1, 1, 50, 0⟩ := by
  simp only [buildFillRequest]
  rw [calcMin_nearlyFull]
  decide

theorem iterationSend_nearlyFull :
    iterationSend nearlyFullStatus 50 (some twoPointGenerator) false =
      some (addPoints (setDataCommand 1) [origin] false) := by
  simp only [iterationSend]
  rw [calcMin_nearlyFull, buildReq_nearlyFull]
  simp [requestPoints, twoPointGenerator, clampDesiredPoints, bufferFreeOf,
    nearlyFullStatus, ETHERDREAM_BUFFER_CAPACITY, ETHERDREAM_MIN_PACKET_POINTS]

theorem lo_le_iclamp (v lo hi : Int) (h : lo ≤ hi) : lo ≤ iclamp v lo hi :=
  le_min (le_max_right _ _) h

/-! ### Claim theorems -/

/-- C9: `close` is idempotent — from every connection state, a second
`EtherDreamDevice::close` leaves the state of the first unchanged,
`isConnected` reports `false` after closing, and `close` has no failure
path (it is a total function on the modelled state). -/
theorem close_close_idempotent (s : EdConnState) :
    EtherDreamDevice.close (EtherDreamDevice.close s) =
      EtherDreamDevice.close s ∧
    EtherDreamDevice.isConnected (EtherDreamDevice.close s) = false := by
  cases s with
  | mk o addr =>
    cases o <;>
      simp [EtherDreamDevice.close, TcpClient.close,
        EtherDreamDevice.isConnected]

/-- C4 counterexample: for a status with `point_rate = 0`,
`computeSleepDuration` returns 50 ms, exceeding the claimed 5 ms bound;
the configured `ETHERDREAM_MAX_SLEEP` constant itself is 50, not 5. -/
theorem computeSleepDuration_exceeds_five_ms :
    computeSleepDuration { pointRate := 0 } ETHERDREAM_BUFFER_CAPACITY
        ETHERDREAM_MIN_PACKET_POINTS = 50 ∧
    ¬(computeSleepDuration { pointRate := 0 } ETHERDREAM_BUFFER_CAPACITY
        ETHERDREAM_MIN_PACKET_POINTS ≤ 5) ∧
    ETHERDREAM_MAX_SLEEP ≠ 5 := by
  decide

/-- C4 (amended): the upper bound on the computed inter-iteration sleep is
`ETHERDREAM_MAX_SLEEP` = 50 ms: for every status and configuration,
`computeSleepDuration` returns at most 50 ms (and at least
`ETHERDREAM_MIN_SLEEP` = 1 ms). -/
theorem computeSleepDuration_le_max (status : EtherDreamStatus)
    (bufferCapacity minPacketPoints : Nat) :
    computeSleepDuration status bufferCapacity minPacketPoints ≤
      ETHERDREAM_MAX_SLEEP ∧
    ETHERDREAM_MIN_SLEEP ≤
      computeSleepDuration status bufferCapacity minPacketPoints ∧
    ETHERDREAM_MAX_SLEEP = 50 := by
  refine ⟨?_, ?_, rfl⟩ <;>
  · simp only [computeSleepDuration]
    split
    · decide
    · split
      · decide
      · first
        | exact iclamp_le_hi _ _ _
        | exact lo_le_iclamp _ _ _ (by decide)

/-- C5 counterexample: a 22-byte reply whose `light_engine_state` byte is
255 and whose `playback_state` byte is 7 — both outside their enumerations
— still decodes successfully, and `waitForResponse` even returns a full
`Ack` for it instead of `protocol_error`. -/
theorem decode_accepts_unknown_states :
    (EtherDreamResponse.decode replyBadStates).isSome = true ∧
    waitForResponse replyBadStates 100 =
      .ok { status := { lightEngineState := 255, playbackState := 7 },
            command := 100 } ∧
    ¬(255 = LightEngineState.Ready ∨ 255 = LightEngineState.Warmup ∨
      255 = LightEngineState.Cooldown ∨ 255 = LightEngineState.Estop) ∧
    ¬(7 = PlaybackState.Idle ∨ 7 = PlaybackState.Prepared ∨
      7 = PlaybackState.Playing ∨ 7 = PlaybackState.Paused) := by
  refine ⟨by decide, by rfl, by decide, by decide⟩

/-- C5 (amended): `EtherDreamResponse::decode` performs no range check at
all — every input of at least 22 bytes decodes successfully, whatever its
`light_engine_state` and `playback_state` bytes hold; only a too-short
input fails. -/
theorem decode_total_on_22_bytes (data : List Nat) (h : 22 ≤ data.length) :
    (EtherDreamResponse.decode data).isSome = true := by
  rw [EtherDreamResponse.decode, if_neg (by omega)]
  rfl

/-- Witness for the amended C5 theorem at the concrete bad-state reply. -/
theorem decode_total_on_22_bytes_witness :
    (EtherDreamResponse.decode replyBadStates).isSome = true :=
  decode_total_on_22_bytes replyBadStates (by decide)

/-- C7: every encoded coordinate lies in `[-32768, 32767]` and every
encoded channel lies in `[0, 65535]`; out-of-range inputs saturate at the
clamped extremes (2 encodes like 1, -2 like -1) instead of wrapping. -/
theorem encode_clamped_ranges :
    (∀ v : ℚ, -32768 ≤ encodeCoordinate v ∧ encodeCoordinate v ≤ 32767) ∧
    (∀ v : ℚ, encodeChannel v ≤ 65535) ∧
    encodeCoordinate 2 = 32767 ∧ encodeCoordinate 1 = 32767 ∧
    encodeCoordinate (-2) = -32767 ∧ encodeCoordinate (-1) = -32767 ∧
    encodeChannel 2 = 65535 ∧ encodeChannel 1 = 65535 ∧
    encodeChannel (-1) = 0 ∧ encodeChannel 0 = 0 := by
  refine ⟨fun v => ⟨lo_le_iclamp _ _ _ (by decide), iclamp_le_hi _ _ _⟩,
    fun v => ?_, ?_, ?_, ?_, ?_, ?_, ?_, ?_, ?_⟩
  · have h := iclamp_le_hi
      (truncToInt (rclamp v 0 1 * 65535 + 1/2)) 0 65535
    show (iclamp (truncToInt (rclamp v 0 1 * 65535 + 1/2)) 0 65535).toNat ≤
      65535
    omega
  all_goals
    norm_num [encodeCoordinate, encodeChannel, rclamp, truncToInt, iclamp,
      min_def, max_def, ceil_neg_half_word] <;> decide

/-- C8: encoding a data frame of `n` points (`n` a `uint16`, so
`n < 65536`) yields exactly `3 + 18 * n` bytes, and the little-endian count
field of the frame equals `n`. -/
theorem dataFrame_length_and_count (pts : List LaserPoint) (inject : Bool)
    (h : pts.length < 65536) :
    (encodeDataFrame pts inject).length = 3 + 18 * pts.length ∧
    countField (encodeDataFrame pts inject) = pts.length := by
  constructor
  · rw [encodeDataFrame, addPoints_length, setDataCommand_eq]
    simp
  · rw [encodeDataFrame, countField_addPoints]
    omega

/-- Witness for the C8 theorem at a concrete two-point frame. -/
theorem dataFrame_length_and_count_witness :
    (encodeDataFrame [origin, origin] true).length = 3 + 18 * 2 ∧
    countField (encodeDataFrame [origin, origin] true) = 2 :=
  dataFrame_length_and_count [origin, origin] true (by decide)

/-- C1 counterexample: for the Scenario-5 status (rate 30000, fullness 200)
at 50 ms latency, `calculateMinimumPoints` and the `PointFillRequest` built
from it yield `minimum_points_required = 1300`, not the claimed 1556: the
code computes `required = 30000 * 50 / 1000 = 1500` with no `MinFloor = 256`
term and no clamp to the FIFO capacity. -/
theorem refill_scenario_yields_1300 :
    calculateMinimumPoints scenario5Status 50 = 1300 ∧
    (buildFillRequest scenario5Status 50 0).minimumPointsRequired = 1300 ∧
    (buildFillRequest scenario5Status 50 0).minimumPointsRequired ≠ 1556 := by
  have h : calculateMinimumPoints scenario5Status 50 = 1300 := by
    norm_num [calculateMinimumPoints, scenario5Status]; decide
  refine ⟨h, ?_, ?_⟩ <;>
  · simp only [buildFillRequest]
    rw [h]
    decide

/-- C1 (amended): the refill computation has no `MinFloor` term and no
pre-clamp to the capacity — `required = R * L / 1000`, the deficit is
`ceil(required - fullness)`, and the request minimum is the deficit raised
to `MIN_PACKET_POINTS` and then clamped to the free FIFO space: for the
Scenario-5 status this gives `required = 1500`, `deficit = 1300`,
`minimum_points_required = min(max(1300, 150), 1599) = 1300`; in general
the request minimum never exceeds the request maximum (the free space). -/
theorem refill_no_min_floor :
    calculateMinimumPoints scenario5Status 50 = 1300 ∧
    (buildFillRequest scenario5Status 50 0).minimumPointsRequired = 1300 ∧
    (buildFillRequest scenario5Status 50 0).maximumPointsRequired = 1599 ∧
    ∀ (s : EtherDreamStatus) (L now : Int),
      (buildFillRequest s L now).minimumPointsRequired ≤
        (buildFillRequest s L now).maximumPointsRequired := by
  have h : calculateMinimumPoints scenario5Status 50 = 1300 := by
    norm_num [calculateMinimumPoints, scenario5Status]; decide
  refine ⟨h, ?_, ?_, fun s L now => ?_⟩
  · simp only [buildFillRequest]
    rw [h]
    decide
  · simp only [buildFillRequest]
    decide
  · simp only [buildFillRequest]
    unfold clampDesiredPoints
    split
    · simp
    · exact min_le_right _ _

/-- C2 counterexample: the concrete mismatched reply (response `'q'`,
fullness 512) parses, surfaces `protocol_error`, and yet the worker
snapshot is NOT updated from it: `updateLastKnownStatus` leaves the old
snapshot (fullness 0) in place, contradicting the claim that the status is
accepted before the call fails. -/
theorem mismatched_ack_discards_status :
    waitForResponse replyMismatch 100 = .error .protocolError ∧
    updateLastKnownStatus initialStatus (waitForResponse replyMismatch 100) =
      initialStatus ∧
    (EtherDreamResponse.decode replyMismatch).isSome = true ∧
    ((EtherDreamResponse.decode replyMismatch).getD
        {}).status.bufferFullness = 512 ∧
    initialStatus.bufferFullness ≠ 512 := by
  refine ⟨by rfl, by rfl, by decide, by decide, by decide⟩

/-- C2 (amended): a validly-parsed 22-byte reply whose response code is not
`'a'` or whose echoed command mismatches surfaces `protocol_error`, and the
status it carries is discarded: the worker snapshot is updated only from
fully matching acks, so it is unchanged by the failing call. -/
theorem mismatched_ack_protocol_error (raw : List Nat) (cmd : Nat)
    (last : EtherDreamStatus) (r : EtherDreamResponse)
    (hdec : EtherDreamResponse.decode raw = some r)
    (hbad : r.response ≠ ACK_ACCEPT ∨ r.command ≠ cmd) :
    waitForResponse raw cmd = .error .protocolError ∧
    updateLastKnownStatus last (waitForResponse raw cmd) = last := by
  have herr : waitForResponse raw cmd = .error .protocolError := by
    unfold waitForResponse
    rw [hdec]
    dsimp only
    rw [if_pos hbad]
  exact ⟨herr, by rw [herr]; rfl⟩

/-- Witness for the amended C2 theorem at the concrete mismatched reply. -/
theorem mismatched_ack_protocol_error_witness :
    waitForResponse replyMismatch 100 = .error .protocolError ∧
    updateLastKnownStatus initialStatus (waitForResponse replyMismatch 100) =
      initialStatus :=
  mismatched_ack_protocol_error replyMismatch 100 initialStatus
    { response := 113, command := 100,
      status := { playbackState := 1, bufferFullness := 512,
                  pointRate := 30000 } }
    (by decide) (by decide)

/-- C6 counterexample: `requestPoints` does not clear the outbound
`pointsToSend` buffer — with one point already pending, a callback that
obeys the min/max contract (producing exactly 1 point for min = max = 1)
leaves the outbound buffer at 2 points, outside `[minimum, maximum]`. -/
theorem requestPoints_appends_outbound :
    (requestPoints (some onePointGenerator) singlePointState
        unitRequest).1 = true ∧
    fillContract unitRequest
      ((requestPoints (some onePointGenerator) singlePointState
        unitRequest).2.newPoints) ∧
    (requestPoints (some onePointGenerator) singlePointState
        unitRequest).2.pointsToSend.length = 2 ∧
    ¬((requestPoints (some onePointGenerator) singlePointState
        unitRequest).2.pointsToSend.length ≤
      unitRequest.maximumPointsRequired) := by
  refine ⟨rfl, ⟨by decide, fun _ => by decide⟩, by decide, by decide⟩

/-- C6 (amended): `requestPoints` returns `false` and changes nothing when
no callback is installed; otherwise it clears the scratch batch buffer
`newPoints`, invokes the callback exactly once against it, and appends the
batch to the outbound `pointsToSend` buffer.  When the callback obeys the
asserted min/max contract and the outbound buffer was empty beforehand (as
in the worker loop, which clears it first), the outbound buffer size ends
in `[minimum, maximum]` (when the maximum is non-zero). -/
theorem requestPoints_scratch_contract (st : LaserDeviceBuffers)
    (req : PointFillRequest) (cb : RequestPointsCallback) :
    (requestPoints none st req).1 = false ∧
    (requestPoints none st req).2 = st ∧
    (requestPoints (some cb) st req).1 = true ∧
    (requestPoints (some cb) st req).2.newPoints = cb req [] ∧
    (requestPoints (some cb) st req).2.pointsToSend =
      st.pointsToSend ++ cb req [] ∧
    (fillContract req (cb req []) → st.pointsToSend = [] →
      req.minimumPointsRequired ≤
        (requestPoints (some cb) st req).2.pointsToSend.length ∧
      (0 < req.maximumPointsRequired →
        (requestPoints (some cb) st req).2.pointsToSend.length ≤
          req.maximumPointsRequired)) := by
  refine ⟨rfl, rfl, rfl, rfl, rfl, fun hc hempty => ?_⟩
  simp only [requestPoints, hempty, List.nil_append]
  exact ⟨hc.1, fun hmax => hc.2 hmax⟩

/-- C3 counterexample: for a status whose fullness (1798) already covers
the 50 ms latency budget, `calculateMinimumPoints` is 0 — yet a data frame
IS sent that iteration (the request minimum is raised to
`min(MIN_PACKET_POINTS, bufferFree) = 1`), and that minimum is below
`MIN_PACKET_POINTS = 150`, contradicting both halves of the claim. -/
theorem frame_sent_despite_zero_deficit :
    calculateMinimumPoints nearlyFullStatus 50 = 0 ∧
    (buildFillRequest nearlyFullStatus 50 0).minimumPointsRequired = 1 ∧
    (iterationSend nearlyFullStatus 50 (some twoPointGenerator)
        false).isSome = true ∧
    (buildFillRequest nearlyFullStatus 50 0).minimumPointsRequired <
      ETHERDREAM_MIN_PACKET_POINTS := by
  refine ⟨calcMin_nearlyFull, by rw [buildReq_nearlyFull],
    by rw [iterationSend_nearlyFull]; rfl, by rw [buildReq_nearlyFull]; decide⟩

/-- C3 (amended): a data frame is withheld only when the FIFO has no free
space: with `bufferFree = 0` no frame is sent, the request minimum is
positive exactly when `bufferFree` is positive (even when the latency
deficit is 0, it is raised to `min(MIN_PACKET_POINTS, bufferFree)`), and it
reaches `MIN_PACKET_POINTS = 150` whenever at least that much space is
free. -/
theorem frame_sent_iff_free_space (status : EtherDreamStatus)
    (L now : Int) (cb : Option RequestPointsCallback) (pending : Bool) :
    (bufferFreeOf ETHERDREAM_BUFFER_CAPACITY status.bufferFullness = 0 →
      iterationSend status L cb pending = none) ∧
    (0 < (buildFillRequest status L now).minimumPointsRequired ↔
      0 < bufferFreeOf ETHERDREAM_BUFFER_CAPACITY status.bufferFullness) ∧
    (ETHERDREAM_MIN_PACKET_POINTS ≤
        bufferFreeOf ETHERDREAM_BUFFER_CAPACITY status.bufferFullness →
      ETHERDREAM_MIN_PACKET_POINTS ≤
        (buildFillRequest status L now).minimumPointsRequired) := by
  refine ⟨fun h => ?_, ?_, fun h => ?_⟩
  · simp [iterationSend, h, clampDesiredPoints]
  · simp only [buildFillRequest]
    unfold clampDesiredPoints
    split
    · simp_all
    · simp only [ETHERDREAM_MIN_PACKET_POINTS]
      omega
  · simp only [buildFillRequest]
    unfold clampDesiredPoints
    split
    · simp only [ETHERDREAM_MIN_PACKET_POINTS] at *
      omega
    · simp only [ETHERDREAM_MIN_PACKET_POINTS] at *
      omega

/-- Witness for the amended C3 theorem: with a full FIFO (fullness 1799,
free space 0) no frame is sent. -/
theorem frame_sent_iff_free_space_witness :
    iterationSend fullStatus 50 (some twoPointGenerator) false = none :=
  (frame_sent_iff_free_space fullStatus 50 0 (some twoPointGenerator)
      false).1 (by decide)

/-- C10: whenever the worker sends a data frame, the encoded count equals
the truncated batch size: it never exceeds the free FIFO space computed
from the last status (capacity 1799 minus reported fullness), never
exceeds the `uint16` maximum 65535, and the frame holds exactly that many
18-byte point records after the 3-byte header. -/
theorem frame_capped_to_free_space (status : EtherDreamStatus) (L : Int)
    (cb : Option RequestPointsCallback) (pending : Bool) (frame : List Nat)
    (h : iterationSend status L cb pending = some frame) :
    countField frame ≤
      bufferFreeOf ETHERDREAM_BUFFER_CAPACITY status.bufferFullness ∧
    countField frame ≤ 65535 ∧
    frame.length = 3 + 18 * countField frame := by
  simp only [iterationSend] at h
  split at h
  · exact absurd h (by simp)
  · split at h
    · exact absurd h (by simp)
    · split at h
      · exact absurd h (by simp)
      · rw [Option.some_inj] at h
        subst h
        rw [countField_addPoints]
        rename_i hdz hx st heq hlen
        set free := bufferFreeOf ETHERDREAM_BUFFER_CAPACITY
          status.bufferFullness with hfree
        set pts := if st.pointsToSend.length > free then
          st.pointsToSend.take free else st.pointsToSend with hpts
        have hple : pts.length ≤ free := by
          rw [hpts]
          split
          · simp only [List.length_take]
            omega
          · omega
        have hcount : min pts.length 65535 % 65536 = min pts.length 65535 := by
          omega
        rw [hcount]
        refine ⟨by omega, by omega, ?_⟩
        rw [addPoints_length, setDataCommand_eq]
        simp only [List.length_cons, List.length_nil, List.length_take]
        omega

/-- Witness for the C10 theorem at the nearly-full scenario: the sent
frame carries exactly 1 point (the free space), 21 bytes in all. -/
theorem frame_capped_to_free_space_witness :
    countField ((iterationSend nearlyFullStatus 50 (some twoPointGenerator)
        false).getD []) ≤
      bufferFreeOf ETHERDREAM_BUFFER_CAPACITY
        nearlyFullStatus.bufferFullness ∧
    countField ((iterationSend nearlyFullStatus 50 (some twoPointGenerator)
        false).getD []) ≤ 65535 ∧
    ((iterationSend nearlyFullStatus 50 (some twoPointGenerator)
        false).getD []).length =
      3 + 18 * countField ((iterationSend nearlyFullStatus 50
        (some twoPointGenerator) false).getD []) :=
  frame_capped_to_free_space nearlyFullStatus 50 (some twoPointGenerator)
    false _ (by rw [iterationSend_nearlyFull]; rfl)

/-- Witness for the amended C6 theorem: a single-point generator against
empty buffers with min = max = 1 lands the outbound buffer at size 1. -/
theorem requestPoints_scratch_contract_witness :
    unitRequest.minimumPointsRequired ≤
      (requestPoints (some onePointGenerator) emptyBuffers
        unitRequest).2.pointsToSend.length ∧
    (0 < unitRequest.maximumPointsRequired →
      (requestPoints (some onePointGenerator) emptyBuffers
        unitRequest).2.pointsToSend.length ≤
        unitRequest.maximumPointsRequired) :=
  (requestPoints_scratch_contract emptyBuffers unitRequest
      onePointGenerator).2.2.2.2.2
    ⟨by decide, fun _ => by decide⟩ rfl

end Libera
